import Mathlib

/-!
Verification development for the A2A (Agent-to-Agent) task server
(`src/server.ts`, `src/store.ts`, `src/error.ts`, `src/handler.ts`).

The TypeScript source is shallowly embedded:
* JSON data (tasks, messages, artifacts) becomes inductive types; an optional
  JSON field becomes `Option`; a field that distinguishes "key absent" from
  "key explicitly null" (the `message` key of a status update, which matters
  for JS object-spread merging) becomes `Option (Option _)`.
* `getCurrentTimestamp()` is modelled by an abstract clock: the server state
  carries a `clock : Nat` that is read as "now" and advanced at each call,
  and the pure merger takes the current time as an argument.
* The async generator produced by a task handler is modelled by the finite
  list of updates it yields followed by its outcome (normal return, or a
  raised JS `Error` carrying a message).  A single request is sequential in
  the source (one `for await` loop), so a run is a fold over that list.
* Thrown JS values are modelled by `Thrown`: an `A2AError`, a generic
  `Error` (message only; stack contents are abstracted), or an already
  normalized JSON-RPC response object (the source throws those too).
* The in-memory store's `Map` is an association list keyed by task id; the
  process-wide cancellation set is a duplicate-free list of task ids.
* `Array.prototype.sort` with comparator `(a.index ?? 0) - (b.index ?? 0)`
  is a stable sort (ES2019); it is modelled by `List.insertionSort` on the
  corresponding `≤` relation, which is the same stable sort.
-/

namespace A2A

/-! ## Data model (`schema.ts` types as used by `server.ts`/`store.ts`) -/

/-- Message role: `"user" | "agent"`. -/
inductive Role where
  | user
  | agent
deriving DecidableEq, Repr

/-- Free-form JSON metadata maps, modelled as association lists with opaque
string values. -/
abbrev Meta := List (String × String)

/-- Models `Part`: tagged union over text / file / data parts. -/
inductive Part where
  | text (text : String) (metadata : Option Meta)
  | file (name mimeType bytes uri : Option String) (metadata : Option Meta)
  | data (data : Meta) (metadata : Option Meta)
deriving DecidableEq, Repr

/-- Models `Message`: a role plus an ordered list of parts. -/
structure Message where
  role : Role
  parts : List Part
  metadata : Option Meta := none
deriving DecidableEq, Repr

/-- Models `TaskState` enumeration. -/
inductive TaskState where
  | submitted
  | working
  | inputRequired
  | completed
  | canceled
  | failed
  | unknown
deriving DecidableEq, Repr

/-- Models `TaskStatus`: state, optional trailing message, timestamp.  Timestamps
are abstract clock readings (`Nat`). -/
structure TaskStatus where
  state : TaskState
  message : Option Message := none
  timestamp : Nat
deriving DecidableEq, Repr

/-- Models `Artifact`. -/
structure Artifact where
  name : Option String := none
  description : Option String := none
  parts : List Part
  index : Option Int := none
  append : Option Bool := none
  lastChunk : Option Bool := none
  metadata : Option Meta := none
deriving DecidableEq, Repr

instance : Inhabited Artifact := ⟨{ parts := [] }⟩

/-- Models `Task`. -/
structure Task where
  id : String
  sessionId : Option String := none
  status : TaskStatus
  artifacts : Option (List Artifact) := none
  metadata : Option Meta := none
deriving DecidableEq, Repr

/-- Models `TaskAndHistory` (`store.ts`): the atomic unit of persistence. -/
structure TaskAndHistory where
  task : Task
  history : List Message
deriving DecidableEq, Repr

/-- Models `Omit<TaskStatus, "timestamp">`, the status-update half of
`TaskYieldUpdate` (`handler.ts`).  The `message` field distinguishes the
JS key being absent (`none`: object spread keeps the old message) from the
key being explicitly `null` (`some none`: spread clears the message). -/
structure TaskStatusUpdate where
  state : TaskState
  message : Option (Option Message) := none
deriving DecidableEq, Repr

/-- Models `TaskYieldUpdate` (`handler.ts`): the tagged union yielded by handlers.
The structural tag of the source (`parts` present ⇒ artifact) becomes the
constructor. -/
inductive TaskYieldUpdate where
  | statusUpdate (u : TaskStatusUpdate)
  | artifactUpdate (a : Artifact)
deriving DecidableEq, Repr

/-! ## The update merger (`A2AServer.applyUpdateToTaskAndHistory`) -/

/-- JS object spread `{...(old || {}), ...upd}` on metadata maps: keys of
`old` keep their position with values overridden by `upd`; keys only in
`upd` are appended. -/
def mergeMeta (old upd : Meta) : Meta :=
  old.map (fun kv => (kv.1, (upd.lookup kv.1).getD kv.2)) ++
    upd.filter (fun kv => (old.lookup kv.1).isNone)

/-- Lines 108-121 of `server.ts`: deep-copy the existing artifact, extend its
parts, merge metadata (update wins), adopt `lastChunk` when the update has
the key (`!== undefined`), adopt `description` when the update's value is
truthy (a present empty string is falsy in JS and is ignored). -/
def appendArtifact (existing upd : Artifact) : Artifact :=
  { existing with
    parts := existing.parts ++ upd.parts
    metadata :=
      match upd.metadata with
      | some m => some (mergeMeta (existing.metadata.getD []) m)
      | none => existing.metadata
    lastChunk :=
      match upd.lastChunk with
      | some b => some b
      | none => existing.lastChunk
    description :=
      match upd.description with
      | some d => if d.isEmpty then existing.description else some d
      | none => existing.description }

/-- Sort key of the comparator `(a.index ?? 0) - (b.index ?? 0)`. -/
def artIndexKey (a : Artifact) : Int := a.index.getD 0

/-- The ordering realised by the JS comparator. -/
def artIndexLe (a b : Artifact) : Prop := artIndexKey a ≤ artIndexKey b

instance : DecidableRel artIndexLe :=
  fun a b => Int.decLe (artIndexKey a) (artIndexKey b)

instance : IsTotal Artifact artIndexLe :=
  ⟨fun a b => Int.le_total (artIndexKey a) (artIndexKey b)⟩

instance : IsTrans Artifact artIndexLe :=
  ⟨fun _ _ _ h1 h2 => Int.le_trans h1 h2⟩

/-- Models `else if (update.name) { findIndex(a => a.name === update.name) }`:
`some idx` exactly when the update's name is truthy and some artifact
matches it; `none` otherwise (falsy name, or no match, signalled in the
source by `findIndex` returning `-1`). -/
def namedMatchIndex (arts : List Artifact) (updName : Option String) : Option Nat :=
  match updName with
  | some n => if n.isEmpty then none else arts.findIdx? (fun a => a.name == some n)
  | none => none

/-- Models `A2AServer.applyUpdateToTaskAndHistory` (lines 75-148 of `server.ts`):
apply one handler yield to a `(task, history)` snapshot.  `now` is the
value `getCurrentTimestamp()` returns during this call. -/
def applyUpdateToTaskAndHistory (now : Nat) (current : TaskAndHistory)
    (update : TaskYieldUpdate) : TaskAndHistory :=
  match update with
  | .statusUpdate u =>
    -- `newTask.status = { ...newTask.status, ...update, timestamp: now }`
    let newStatus : TaskStatus :=
      { state := u.state
        message :=
          match u.message with
          | some m => m
          | none => current.task.status.message
        timestamp := now }
    -- `if (update.message?.role === "agent") newHistory.push(update.message)`
    let newHistory :=
      match u.message with
      | some (some m) =>
        if m.role = Role.agent then current.history ++ [m] else current.history
      | _ => current.history
    { task := { current.task with status := newStatus }, history := newHistory }
  | .artifactUpdate u =>
    let arts := current.task.artifacts.getD []
    -- `const existingIndex = update.index ?? -1`
    let existingIndex : Int := u.index.getD (-1)
    let artsAfter :=
      if 0 ≤ existingIndex ∧ existingIndex < (arts.length : Int) then
        let pos := existingIndex.toNat
        let existingArtifact := arts.getD pos default
        if u.append = some true then
          arts.set pos (appendArtifact existingArtifact u)
        else
          -- overwrite slot with a copy of the update
          arts.set pos u
      else
        match namedMatchIndex arts u.name with
        | some namedIdx => arts.set namedIdx u
        | none =>
          let pushed := arts ++ [u]
          if pushed.any (fun a => a.index.isSome) then
            List.insertionSort artIndexLe pushed
          else pushed
    { task := { current.task with artifacts := some artsAfter }
      history := current.history }

/-! ## Error taxonomy (`error.ts`) and JSON-RPC envelopes -/

/-- Wire-level JSON-RPC id: string, number, or null. -/
inductive RpcId where
  | str (s : String)
  | num (n : Int)
  | null
deriving DecidableEq, Repr

/-- The `data` payload of a JSON-RPC error object.  In the source it is an
arbitrary JS value; the values actually stored are `{stack: ...}` objects
(contents abstracted) and whole JSON-RPC error responses wrapped by
`normalizeError` when it receives an unknown thrown value.  A wrapped
response whose own `data` is absent carries `noData` (the encoding of
`Option` inside the recursive type). -/
inductive ErrData where
  | stackTrace : ErrData
  | noData : ErrData
  | failureResponse (id : RpcId) (code : Int) (message : String)
      (data : ErrData) : ErrData
deriving DecidableEq, Repr

/-- Models `A2AError` (`error.ts`): JSON-RPC code, message, optional data, optional
task-id context. -/
structure A2AError where
  code : Int
  message : String
  data : Option ErrData := none
  taskId : Option String := none
deriving DecidableEq, Repr

/-- Models `A2AError.invalidRequest` (code -32600). -/
def A2AError.invalidRequest (message : String) : A2AError :=
  { code := -32600, message := message }

/-- Models `A2AError.methodNotFound` (code -32601). -/
def A2AError.methodNotFound (method : String) : A2AError :=
  { code := -32601, message := "Method not found: " ++ method }

/-- Models `A2AError.invalidParams` (code -32602). -/
def A2AError.invalidParams (message : String) : A2AError :=
  { code := -32602, message := message }

/-- Models `A2AError.internalError` (code -32603). -/
def A2AError.internalError (message : String) (data : Option ErrData) : A2AError :=
  { code := -32603, message := message, data := data }

/-- Models `A2AError.taskNotFound` (code -32001). -/
def A2AError.taskNotFound (taskId : String) : A2AError :=
  { code := -32001, message := "Task not found: " ++ taskId, taskId := some taskId }

/-- A JSON-RPC error response body (`createErrorResponse` output:
`{jsonrpc: "2.0", id, error: {code, message, data?}}`). -/
structure JsonRpcFailure where
  id : RpcId
  code : Int
  message : String
  data : Option ErrData := none
deriving DecidableEq, Repr

/-- The `result` payload of a JSON-RPC success response: a task for unary
calls, or one of the two SSE event shapes. -/
inductive RpcResult where
  | task (t : Task)
  | statusEvent (id : String) (status : TaskStatus) (final : Bool)
  | artifactEvent (id : String) (artifact : Artifact) (final : Bool)
deriving DecidableEq, Repr

/-- A JSON-RPC response body: success envelope or error envelope. -/
inductive RpcResponse where
  | success (id : RpcId) (result : RpcResult)
  | failure (f : JsonRpcFailure)
deriving DecidableEq, Repr

/-- A thrown JS value as the server's catch blocks see it: an `A2AError`,
a generic `Error` carrying a message (stack abstracted), or an
already-normalized JSON-RPC response object (which `handleTaskSend` throws
and `endpoint` passes to `next`). -/
inductive Thrown where
  | a2a (e : A2AError)
  | jsError (message : String)
  | respFailure (f : JsonRpcFailure)
deriving DecidableEq, Repr

/-- Models `safeReqId`: `id ?? null`. -/
def safeReqId (id : Option RpcId) : RpcId := id.getD RpcId.null

/-- Models `createSuccessResponse`. -/
def createSuccessResponse (id : Option RpcId) (result : RpcResult) : RpcResponse :=
  RpcResponse.success (safeReqId id) result

/-- Models `A2AServer.normalizeError` (lines 863-892 of `server.ts`): classify the
thrown value, optionally tag it with a task id, and build an error
response. -/
def normalizeError (t : Thrown) (reqId : Option RpcId) (taskId : Option String) :
    JsonRpcFailure :=
  let base : A2AError :=
    match t with
    | .a2a e => e
    | .jsError m => A2AError.internalError m (some ErrData.stackTrace)
    | .respFailure f =>
      A2AError.internalError "An unknown error occurred."
        (some (ErrData.failureResponse f.id f.code f.message
          (f.data.getD ErrData.noData)))
  let tagged : A2AError :=
    match taskId with
    | some tid =>
      if tid ≠ "" ∧ base.taskId = none then { base with taskId := some tid } else base
    | none => base
  { id := safeReqId reqId, code := tagged.code, message := tagged.message
    data := tagged.data }

/-- Models `A2AServer.sendJsonResponse` (lines 1013-1026): when the request id is
`undefined` or `null`, log a warning and send nothing (`none`); otherwise
send a success envelope echoing the id. -/
def sendJsonResponse (reqId : Option RpcId) (result : RpcResult) : Option RpcResponse :=
  match reqId with
  | none => none
  | some RpcId.null => none
  | some i => some (RpcResponse.success i result)

/-! ## Server state: store, cancellation set, clock -/

/-- Generic association-list update modelling `Map.set` / overwriting a file:
replace the entry if the key exists, append otherwise. -/
def saveEntry {α : Type} : List (String × α) → String → α → List (String × α)
  | [], k, v => [(k, v)]
  | (k', v') :: rest, k, v =>
    if k' == k then (k, v) :: rest else (k', v') :: saveEntry rest k v

/-- Process state of one `A2AServer`: the in-memory task store
(`InMemoryTaskStore`), the `activeCancellations` set, and the abstract
clock backing `getCurrentTimestamp()`. -/
structure ServerState where
  store : List (String × TaskAndHistory)
  cancellations : List String
  clock : Nat
deriving DecidableEq, Repr

/-- Advance the clock past one `getCurrentTimestamp()` call. -/
def tick (st : ServerState) : ServerState := { st with clock := st.clock + 1 }

/-- Models `InMemoryTaskStore.load` (deep copies are identities on pure values). -/
def storeLoad (st : ServerState) (taskId : String) : Option TaskAndHistory :=
  st.store.lookup taskId

/-- Models `InMemoryTaskStore.save`: keyed by `data.task.id`. -/
def storeSave (st : ServerState) (data : TaskAndHistory) : ServerState :=
  { st with store := saveEntry st.store data.task.id data }

/-- Models `Set.add` on the cancellation set. -/
def addToSet (l : List String) (x : String) : List String :=
  if l.contains x then l else l ++ [x]

/-- Models `Set.delete` on the cancellation set. -/
def eraseSet (l : List String) (x : String) : List String :=
  l.filter (fun y => y != x)

/-- The cancellation predicate handed to handlers by `createTaskContext`:
`() => this.activeCancellations.has(task.id)`, read against the current
server state. -/
def isCancelled (st : ServerState) (taskId : String) : Bool :=
  st.cancellations.contains taskId

/-! ## The task engine -/

/-- One handler run, abstracting the async generator: the updates it yields
in order, then its outcome — `none` for a normal return, `some msg` for a
raised JS `Error` whose message is `msg` (raised when the engine pulls the
generator after the last yield). -/
structure HandlerRun where
  yields : List TaskYieldUpdate
  outcome : Option String
deriving DecidableEq, Repr

/-- Terminal states as listed in `loadOrCreateTaskAndHistory` and
`handleTaskCancel`: `["completed", "failed", "canceled"]`. -/
def terminalStates : List TaskState :=
  [TaskState.completed, TaskState.failed, TaskState.canceled]

/-- The `finalStates` list of the streaming handler (terminal states plus
`input-required`). -/
def sseFinalStates : List TaskState :=
  [TaskState.completed, TaskState.failed, TaskState.canceled, TaskState.inputRequired]

/-- Models `A2AServer.loadOrCreateTaskAndHistory` (lines 653-733). -/
def loadOrCreateTaskAndHistory (st : ServerState) (taskId : String)
    (initialMessage : Message) (sessionId : Option String) (metadata : Option Meta) :
    ServerState × TaskAndHistory :=
  match storeLoad st taskId with
  | none =>
    -- create new task and history; the initial user message goes to history
    let initialTask : Task :=
      { id := taskId
        sessionId := sessionId
        status := { state := TaskState.submitted, timestamp := st.clock, message := none }
        artifacts := some []
        metadata := metadata }
    let d : TaskAndHistory := { task := initialTask, history := [initialMessage] }
    (storeSave (tick st) d, d)
  | some d0 =>
    -- append the incoming user message, then adjust state
    let d1 : TaskAndHistory := { task := d0.task, history := d0.history ++ [initialMessage] }
    if terminalStates.contains d1.task.status.state then
      -- reset to 'submitted', clearing the old agent message (explicit null)
      let d2 := applyUpdateToTaskAndHistory st.clock d1
        (TaskYieldUpdate.statusUpdate { state := TaskState.submitted, message := some none })
      (storeSave (tick st) d2, d2)
    else if d1.task.status.state = TaskState.inputRequired then
      let d2 := applyUpdateToTaskAndHistory st.clock d1
        (TaskYieldUpdate.statusUpdate { state := TaskState.working, message := none })
      (storeSave (tick st) d2, d2)
    else
      (storeSave st d1, d1)

/-- The synthesized failure update of the two catch blocks:
`{state: "failed", message: agent text "Handler failed: <msg>"}`. -/
def failureStatusUpdate (errMsg : String) : TaskStatusUpdate :=
  { state := TaskState.failed
    message := some (some
      { role := Role.agent
        parts := [Part.text ("Handler failed: " ++ errMsg) none] }) }

/-- The `for await` loop of `handleTaskSend` (lines 332-339): merge and save
every yield; there is no terminal-state check here. -/
def unaryLoop (st : ServerState) (data : TaskAndHistory) :
    List TaskYieldUpdate → ServerState × TaskAndHistory
  | [] => (st, data)
  | y :: rest =>
    let d' := applyUpdateToTaskAndHistory st.clock data y
    unaryLoop (storeSave (tick st) d') d' rest

/-- Models `tasks/send` params after `validateTaskSendParams` passed. -/
structure CheckedSendParams where
  id : String
  message : Message
  sessionId : Option String
  metadata : Option Meta
deriving DecidableEq, Repr

/-- The params object of a task request as received on the wire.  `id = none`
covers both a missing and a non-string id (both fail the `typeof` check);
likewise for `message`. -/
structure TaskParams where
  id : Option String := none
  message : Option Message := none
  sessionId : Option String := none
  metadata : Option Meta := none
deriving DecidableEq, Repr

/-- Models `A2AServer.validateTaskSendParams` (lines 786-805). -/
def validateTaskSendParams : Option TaskParams → Except A2AError CheckedSendParams
  | none => Except.error (A2AError.invalidParams "Missing or invalid params object.")
  | some p =>
    match p.id with
    | none => Except.error (A2AError.invalidParams "Invalid or missing task ID (params.id).")
    | some i =>
      if i = "" then
        Except.error (A2AError.invalidParams "Invalid or missing task ID (params.id).")
      else
        match p.message with
        | none =>
          Except.error (A2AError.invalidParams "Invalid or missing message object (params.message).")
        | some m => Except.ok ⟨i, m, p.sessionId, p.metadata⟩

/-- Models `A2AServer.handleTaskSend` (lines 308-376).  Returns the state after the
run and either the value handed to `sendJsonResponse` (`Except.ok`) or the
thrown value (`Except.error`) — on a handler crash the source throws the
already-normalized response object (`throw this.normalizeError(...)`). -/
def handleTaskSend (h : HandlerRun) (reqId : Option RpcId) (params : Option TaskParams)
    (st : ServerState) : ServerState × Except Thrown (Option RpcResponse) :=
  match validateTaskSendParams params with
  | Except.error e => (st, Except.error (Thrown.a2a e))
  | Except.ok p =>
    let r1 := loadOrCreateTaskAndHistory st p.id p.message p.sessionId p.metadata
    let r2 := unaryLoop r1.1 r1.2 h.yields
    match h.outcome with
    | none => (r2.1, Except.ok (sendJsonResponse reqId (RpcResult.task r2.2.task)))
    | some errMsg =>
      let d2 := applyUpdateToTaskAndHistory r2.1.clock r2.2
        (TaskYieldUpdate.statusUpdate (failureStatusUpdate errMsg))
      let st3 := storeSave (tick r2.1) d2
      (st3, Except.error (Thrown.respFailure
        (normalizeError (Thrown.jsError errMsg) reqId (some p.id))))

/-! ## The SSE streaming engine (`handleTaskSendSubscribe`, lines 385-564) -/

/-- Result of the streaming `for await` loop. -/
structure SseLoopResult where
  st : ServerState
  data : TaskAndHistory
  events : List RpcResponse
  lastEventWasFinal : Bool
  broke : Bool
deriving DecidableEq, Repr

/-- The streaming loop (lines 426-478): merge, save, build one event per
yield, and `break` at the first status update whose merged state is in
`sseFinalStates`. -/
def sseLoop (reqId : Option RpcId) (taskId : String) (st : ServerState)
    (data : TaskAndHistory) : List TaskYieldUpdate → SseLoopResult
  | [] => ⟨st, data, [], false, false⟩
  | y :: rest =>
    let d' := applyUpdateToTaskAndHistory st.clock data y
    let st' := storeSave (tick st) d'
    match y with
    | .statusUpdate _ =>
      let isFinal := sseFinalStates.contains d'.task.status.state
      let ev := createSuccessResponse reqId
        (RpcResult.statusEvent taskId d'.task.status isFinal)
      if isFinal then ⟨st', d', [ev], true, true⟩
      else
        let r := sseLoop reqId taskId st' d' rest
        ⟨r.st, r.data, ev :: r.events, r.lastEventWasFinal, r.broke⟩
    | .artifactUpdate a =>
      -- find the updated artifact in the new task object (fallback: the yield)
      let updatedArtifact :=
        ((d'.task.artifacts.getD []).find? (fun b =>
          (b.index.isSome && b.index == a.index) ||
          (b.name.isSome && !(b.name.getD "").isEmpty && b.name == a.name))).getD a
      let ev := createSuccessResponse reqId
        (RpcResult.artifactEvent taskId updatedArtifact false)
      let r := sseLoop reqId taskId st' d' rest
      ⟨r.st, r.data, ev :: r.events, r.lastEventWasFinal, r.broke⟩

/-- What happens after the loop (lines 480-563): if the loop `break`ed, the
generator is never pulled again, so its outcome is not observed and the
stream just ends; otherwise a raised error is caught (merge + save a
`failed` update, emit it as the final event), and a normal return without a
final event forces `{state: "completed"}` when needed and emits the final
status event. -/
def sseFinish (h : HandlerRun) (reqId : Option RpcId) (taskId : String)
    (r : SseLoopResult) : ServerState × List RpcResponse :=
  if r.broke then (r.st, r.events)
  else
    match h.outcome with
    | some errMsg =>
      let d2 := applyUpdateToTaskAndHistory r.st.clock r.data
        (TaskYieldUpdate.statusUpdate (failureStatusUpdate errMsg))
      let st2 := storeSave (tick r.st) d2
      (st2, r.events ++ [createSuccessResponse reqId
        (RpcResult.statusEvent taskId d2.task.status true)])
    | none =>
      if r.lastEventWasFinal then (r.st, r.events)
      else
        if sseFinalStates.contains r.data.task.status.state then
          (r.st, r.events ++ [createSuccessResponse reqId
            (RpcResult.statusEvent taskId r.data.task.status true)])
        else
          let d2 := applyUpdateToTaskAndHistory r.st.clock r.data
            (TaskYieldUpdate.statusUpdate { state := TaskState.completed, message := none })
          let st2 := storeSave (tick r.st) d2
          (st2, r.events ++ [createSuccessResponse reqId
            (RpcResult.statusEvent taskId d2.task.status true)])

/-- The streaming run after load-or-create: loop then post-loop handling. -/
def sseRun (h : HandlerRun) (reqId : Option RpcId) (taskId : String)
    (st : ServerState) (data : TaskAndHistory) : ServerState × List RpcResponse :=
  sseFinish h reqId taskId (sseLoop reqId taskId st data h.yields)

/-- Models `A2AServer.handleTaskSendSubscribe`: validate, load-or-create, stream.
The returned list is the sequence of SSE frames written to the response. -/
def handleTaskSendSubscribe (h : HandlerRun) (reqId : Option RpcId)
    (params : Option TaskParams) (st : ServerState) :
    ServerState × Except Thrown (List RpcResponse) :=
  match validateTaskSendParams params with
  | Except.error e => (st, Except.error (Thrown.a2a e))
  | Except.ok p =>
    let r1 := loadOrCreateTaskAndHistory st p.id p.message p.sessionId p.metadata
    let r2 := sseRun h reqId p.id r1.1 r1.2
    (r2.1, Except.ok r2.2)

/-! ## `tasks/get` and `tasks/cancel` -/

/-- Models `A2AServer.handleTaskGet` (lines 573-587).  Destructuring `req.params`
when it is `undefined` raises a `TypeError`. -/
def handleTaskGet (reqId : Option RpcId) (params : Option TaskParams)
    (st : ServerState) : ServerState × Except Thrown (Option RpcResponse) :=
  match params with
  | none =>
    (st, Except.error (Thrown.jsError
      "Cannot destructure property 'id' of 'req.params' as it is undefined."))
  | some p =>
    match p.id with
    | none => (st, Except.error (Thrown.a2a (A2AError.invalidParams "Missing task ID.")))
    | some tid =>
      if tid = "" then
        (st, Except.error (Thrown.a2a (A2AError.invalidParams "Missing task ID.")))
      else
        match storeLoad st tid with
        | none => (st, Except.error (Thrown.a2a (A2AError.taskNotFound tid)))
        | some data => (st, Except.ok (sendJsonResponse reqId (RpcResult.task data.task)))

/-- The cancel status update:
`{state: "canceled", message: agent text "Task cancelled by request."}`. -/
def cancelStatusUpdate : TaskStatusUpdate :=
  { state := TaskState.canceled
    message := some (some
      { role := Role.agent
        parts := [Part.text "Task cancelled by request." none] }) }

/-- Models `this.activeCancellations.add(taskId)` (line 620). -/
def cancelSignalled (st : ServerState) (taskId : String) : ServerState :=
  { st with cancellations := addToSet st.cancellations taskId }

/-- Models `A2AServer.handleTaskCancel` (lines 596-640): load; a task already in a
terminal state is returned unchanged; otherwise add the id to the
cancellation set, merge and save the `canceled` update, remove the id from
the set, and respond with the updated task. -/
def handleTaskCancel (reqId : Option RpcId) (params : Option TaskParams)
    (st : ServerState) : ServerState × Except Thrown (Option RpcResponse) :=
  match params with
  | none =>
    (st, Except.error (Thrown.jsError
      "Cannot destructure property 'id' of 'req.params' as it is undefined."))
  | some p =>
    match p.id with
    | none => (st, Except.error (Thrown.a2a (A2AError.invalidParams "Missing task ID.")))
    | some tid =>
      if tid = "" then
        (st, Except.error (Thrown.a2a (A2AError.invalidParams "Missing task ID.")))
      else
        match storeLoad st tid with
        | none => (st, Except.error (Thrown.a2a (A2AError.taskNotFound tid)))
        | some data =>
          if terminalStates.contains data.task.status.state then
            (st, Except.ok (sendJsonResponse reqId (RpcResult.task data.task)))
          else
            let st1 := cancelSignalled st tid
            let d1 := applyUpdateToTaskAndHistory st1.clock data
              (TaskYieldUpdate.statusUpdate cancelStatusUpdate)
            let st2 := storeSave (tick st1) d1
            let st3 := { st2 with cancellations := eraseSet st2.cancellations tid }
            (st3, Except.ok (sendJsonResponse reqId (RpcResult.task d1.task)))

/-! ## The JSON-RPC dispatcher (`endpoint` + `errorHandler`) -/

/-- A parsed JSON-RPC request body.  `id = none` models the key being
absent; the typed model makes `method` a string and `params` an object or
absent by construction. -/
structure RpcRequest where
  jsonrpc : String := "2.0"
  id : Option RpcId := none
  method : String
  params : Option TaskParams := none
deriving DecidableEq, Repr

/-- Models `A2AServer.isValidJsonRpcRequest` (lines 764-777): `jsonrpc === "2.0"`
and the id present as string, number or null (an absent id is invalid). -/
def isValidJsonRpcRequest (body : RpcRequest) : Bool :=
  body.jsonrpc == "2.0" && body.id.isSome

/-- Models `A2AServer.errorHandler` (lines 943-1003) for a parsed (object) body:
re-normalizes whatever reached `next`.  For a non-`A2AError` value the
request id is re-read with `JSON.parse(req.body)`, which throws on the
already-parsed object body, leaving the response id `null`. -/
def errorHandler (bodyId : Option RpcId) (err : Thrown) : RpcResponse :=
  match err with
  | Thrown.a2a e =>
    RpcResponse.failure (normalizeError err (some (bodyId.getD RpcId.null)) e.taskId)
  | _ =>
    RpcResponse.failure (normalizeError err (some RpcId.null) none)

/-- The `catch` block of `endpoint` (lines 291-297): tag an `A2AError` with
the params' task id when missing, then hand `normalizeError(error, body.id
?? null)` — a response object, not an error — to `next`, which routes it to
`errorHandler`. -/
def endpointCatch (body : RpcRequest) (t : Thrown) : RpcResponse :=
  let paramsTaskId : Option String := body.params.bind (fun p => p.id)
  let t' : Thrown :=
    match t, paramsTaskId with
    | Thrown.a2a e, some tid =>
      if tid ≠ "" ∧ e.taskId = none then Thrown.a2a { e with taskId := some tid } else t
    | _, _ => t
  errorHandler body.id (Thrown.respFailure (normalizeError t' (some (safeReqId body.id)) none))

/-- The unary request pipeline: `endpoint` routing (lines 247-299) plus
`errorHandler`.  `none` as the response means no JSON body was written
(`sendJsonResponse` returns early on a null id).  Streaming is modelled
separately by `handleTaskSendSubscribe`. -/
def endpointUnary (h : HandlerRun) (body : RpcRequest) (st : ServerState) :
    ServerState × Option RpcResponse :=
  let routed : ServerState × Except Thrown (Option RpcResponse) :=
    if isValidJsonRpcRequest body then
      match body.method with
      | "tasks/send" => handleTaskSend h body.id body.params st
      | "tasks/get" => handleTaskGet body.id body.params st
      | "tasks/cancel" => handleTaskCancel body.id body.params st
      | m => (st, Except.error (Thrown.a2a (A2AError.methodNotFound m)))
    else
      (st, Except.error (Thrown.a2a (A2AError.invalidRequest "Invalid JSON-RPC request structure.")))
  match routed with
  | (st', Except.ok r) => (st', r)
  | (st', Except.error t) => (st', some (endpointCatch body t))

/-! ## The disk store (`FileStore`, `store.ts` lines 95-271) -/

/-- Node's POSIX `path.basename`: drop trailing `'/'` characters, then keep
the characters after the last remaining `'/'`.  (`basename "/" = ""`,
`basename "a/b/" = "b"`.) -/
def basenameChars (cs : List Char) : List Char :=
  let noTrail := (cs.reverse.dropWhile (fun c => c == '/')).reverse
  (noTrail.reverse.takeWhile (fun c => c != '/')).reverse

/-- Models `path.basename` on strings. -/
def basename (s : String) : String := String.mk (basenameChars s.data)

/-- JS `String.prototype.includes`. -/
def strContains (s sub : String) : Bool := decide (sub.data <:+: s.data)

/-- Models `taskId.includes("..")`. -/
def includesDotDot (s : String) : Bool := strContains s ".."

/-- Filesystem side effects, recorded in program order so that "rejects
before reading or writing any file" is expressible.  The two parallel
writes of `save` are recorded left-to-right. -/
inductive FsOp where
  | read (path : String)
  | write (path : String)
  | mkdir (dir : String)
deriving DecidableEq, Repr

/-- Models `FileStore.getTaskFilePath`: `path.join(baseDir, basename(taskId) +
".json")` (join modelled as `/`-concatenation; no rejection here). -/
def getTaskFilePath (baseDir taskId : String) : String :=
  baseDir ++ "/" ++ basename taskId ++ ".json"

/-- Models `FileStore.getHistoryFilePath` (lines 141-148): reject the id with an
invalid-params error when `path.basename` changed it or it contains
`".."`. -/
def getHistoryFilePath (baseDir taskId : String) : Except A2AError String :=
  let safeTaskId := basename taskId
  if safeTaskId ≠ taskId ∨ includesDotDot taskId = true then
    Except.error (A2AError.invalidParams ("Invalid Task ID format: " ++ taskId))
  else
    Except.ok (baseDir ++ "/" ++ safeTaskId ++ ".history.json")

/-- Content of a task file: parses to a task, or `JSON.parse` throws. -/
inductive TaskFileContent where
  | jsonTask (t : Task)
  | unparsable
deriving DecidableEq, Repr

/-- Content of a history file: the well-formed `{"messageHistory": [...]}`
shape, some other JSON shape (fails `isHistoryFileContent`), or unparsable
(`JSON.parse` throws, caught by `load`'s inner `try`). -/
inductive HistoryFileContent where
  | jsonHistory (messageHistory : List Message)
  | wrongShape
  | unparsable
deriving DecidableEq, Repr

/-- The filesystem visible to a `FileStore`, as typed path maps. -/
structure DiskFS where
  taskFiles : List (String × TaskFileContent)
  historyFiles : List (String × HistoryFileContent)
deriving DecidableEq, Repr

/-- Models `FileStore.load` (lines 214-250): both file paths are computed (and the
id validated) before any read; a missing task file is `none`; an
unparsable task file raises an internal error; history-file problems fall
back to an empty history with a warning. -/
def fileStoreLoad (fs : DiskFS) (baseDir taskId : String) :
    List FsOp × Except A2AError (Option TaskAndHistory) :=
  let taskFilePath := getTaskFilePath baseDir taskId
  match getHistoryFilePath baseDir taskId with
  | Except.error e => ([], Except.error e)
  | Except.ok historyFilePath =>
    match fs.taskFiles.lookup taskFilePath with
    | none => ([FsOp.read taskFilePath], Except.ok none)
    | some TaskFileContent.unparsable =>
      ([FsOp.read taskFilePath],
       Except.error (A2AError.internalError ("Failed to read file " ++ taskFilePath) none))
    | some (TaskFileContent.jsonTask t) =>
      let history :=
        match fs.historyFiles.lookup historyFilePath with
        | some (HistoryFileContent.jsonHistory msgs) => msgs
        | _ => []
      ([FsOp.read taskFilePath, FsOp.read historyFilePath],
       Except.ok (some { task := t, history := history }))

/-- Models `FileStore.save` (lines 257-270): both paths are computed (and the id
validated) before the directory is ensured and the two files written. -/
def fileStoreSave (fs : DiskFS) (baseDir : String) (data : TaskAndHistory) :
    List FsOp × Except A2AError DiskFS :=
  let taskFilePath := getTaskFilePath baseDir data.task.id
  match getHistoryFilePath baseDir data.task.id with
  | Except.error e => ([], Except.error e)
  | Except.ok historyFilePath =>
    ([FsOp.mkdir baseDir, FsOp.write taskFilePath, FsOp.write historyFilePath],
     Except.ok
       { taskFiles := saveEntry fs.taskFiles taskFilePath (TaskFileContent.jsonTask data.task)
         historyFiles :=
           saveEntry fs.historyFiles historyFilePath
             (HistoryFileContent.jsonHistory data.history) })

/-! ## Concrete fixtures used by witnesses and counterexamples -/

/-- A user message with one text part. -/
def msgUserHi : Message := { role := Role.user, parts := [Part.text "hi" none] }

/-- The agent message synthesized for a handler crash with message "boom". -/
def msgFailBoom : Message :=
  { role := Role.agent, parts := [Part.text "Handler failed: boom" none] }

/-- Does any text part of the message contain `sub`? -/
def msgTextContains (m : Message) (sub : String) : Bool :=
  m.parts.any (fun p =>
    match p with
    | Part.text t _ => strContains t sub
    | _ => false)

/-- A task `t1` in state `working` at timestamp 3. -/
def taskT1 : Task :=
  { id := "t1"
    status := { state := TaskState.working, message := none, timestamp := 3 }
    artifacts := some [] }

/-- Models `t1` with its history. -/
def dataT1 : TaskAndHistory := { task := taskT1, history := [msgUserHi] }

/-- A fresh server state. -/
def st0 : ServerState := { store := [], cancellations := [], clock := 0 }

/-- Valid `tasks/send` params for `t1`. -/
def paramsT1 : TaskParams := { id := some "t1", message := some msgUserHi }

/-- A handler run that yields one `working` status and returns. -/
def runWorking : HandlerRun :=
  ⟨[TaskYieldUpdate.statusUpdate { state := TaskState.working, message := none }], none⟩

/-- The task persisted by `runWorking` through unary `tasks/send` on `st0`:
created (timestamp 0), then merged to `working` at clock 1 — never forced
to `completed`. -/
def unaryNoForceTask : Task :=
  { id := "t1"
    status := { state := TaskState.working, message := none, timestamp := 1 }
    artifacts := some [] }

/-- A handler run that yields a terminal `completed` status and then another
`working` status. -/
def runPastTerminal : HandlerRun :=
  ⟨[TaskYieldUpdate.statusUpdate { state := TaskState.completed, message := none },
    TaskYieldUpdate.statusUpdate { state := TaskState.working, message := none }], none⟩

/-- The `(task, history)` pair produced by load-or-create of `t1` on `st0`. -/
def createdT1 : TaskAndHistory :=
  (loadOrCreateTaskAndHistory st0 "t1" msgUserHi none none).2

/-- The pair persisted after `runPastTerminal` merged both of its yields. -/
def pastTerminalData : TaskAndHistory :=
  { task :=
      { id := "t1"
        status := { state := TaskState.working, message := none, timestamp := 2 }
        artifacts := some [] }
    history := [msgUserHi] }

/-- An artifact update (for the C5 counterexample). -/
def artA : Artifact :=
  { name := some "out.txt", parts := [Part.text "A" none], index := some 0 }

/-- An existing artifact whose description should be kept against an
empty-string update description. -/
def artKeep : Artifact :=
  { name := some "out.txt", description := some "keep"
    parts := [Part.text "A" none], index := some 0 }

/-- Task data holding `artKeep`. -/
def dataKeep : TaskAndHistory :=
  { task := { taskT1 with artifacts := some [artKeep] }, history := [] }

/-- An in-bounds `append: true` update whose `description` is the (falsy)
empty string. -/
def updEmptyDesc : Artifact :=
  { description := some "", parts := [Part.text "B" none]
    index := some 0, append := some true }

/-- Artifacts with indices 5 and 7 (a sorted artifact list). -/
def art5 : Artifact := { name := some "a", parts := [], index := some 5 }

/-- See `art5`. -/
def art7 : Artifact := { name := some "b", parts := [], index := some 7 }

/-- Task data holding `[art5, art7]`. -/
def data57 : TaskAndHistory :=
  { task := { taskT1 with artifacts := some [art5, art7] }, history := [] }

/-- An in-bounds, non-append update carrying index 1: it replaces slot 1,
leaving `[art5 (index 5), updIdx1 (index 1)]` — out of ascending order. -/
def updIdx1 : Artifact := { parts := [Part.text "x" none], index := some 1 }

/-- Scenario B, second yield: `{name:"out.txt", index:0, parts:[text "A"]}`. -/
def scenBYield2 : Artifact :=
  { name := some "out.txt", parts := [Part.text "A" none], index := some 0 }

/-- Scenario B, third yield:
`{name:"out.txt", index:0, append:true, parts:[text "B"], lastChunk:true}`. -/
def scenBYield3 : Artifact :=
  { name := some "out.txt", parts := [Part.text "B" none], index := some 0
    append := some true, lastChunk := some true }

/-- Scenario B handler run. -/
def scenBRun : HandlerRun :=
  ⟨[TaskYieldUpdate.statusUpdate { state := TaskState.working, message := none },
    TaskYieldUpdate.artifactUpdate scenBYield2,
    TaskYieldUpdate.artifactUpdate scenBYield3,
    TaskYieldUpdate.statusUpdate { state := TaskState.completed, message := none }], none⟩

/-- The user message of Scenario B. -/
def msgUserGo : Message := { role := Role.user, parts := [Part.text "go" none] }

/-- Scenario B params (`id = "t2"`). -/
def paramsT2 : TaskParams := { id := some "t2", message := some msgUserGo }

/-- The artifact Scenario B must end with. -/
def scenBExpected : Artifact :=
  { name := some "out.txt", parts := [Part.text "A" none, Part.text "B" none]
    index := some 0, lastChunk := some true }

/-- Scenario D request body: `tasks/send` for `t4`, request id 1. -/
def c1Body : RpcRequest :=
  { jsonrpc := "2.0", id := some (RpcId.num 1), method := "tasks/send"
    params := some { id := some "t4", message := some msgUserHi } }

/-- Scenario D handler run: yield `working`, then raise `Error("boom")`. -/
def c1Run : HandlerRun :=
  ⟨[TaskYieldUpdate.statusUpdate { state := TaskState.working, message := none }],
   some "boom"⟩

/-- The full pipeline result for Scenario D. -/
def c1Result : ServerState × Option RpcResponse := endpointUnary c1Run c1Body st0

/-- The wire envelope Scenario D actually produces: the handler error was
normalized in `handleTaskSend`, wrapped as "unknown" by `endpoint`'s
catch, and wrapped again (with the id re-read as `null`) by
`errorHandler`. -/
def c1WireFailure : JsonRpcFailure :=
  { id := RpcId.null
    code := -32603
    message := "An unknown error occurred."
    data := some (ErrData.failureResponse (RpcId.num 1) (-32603)
      "An unknown error occurred."
      (ErrData.failureResponse (RpcId.num 1) (-32603) "boom" ErrData.stackTrace)) }

/-- A server state already holding `t1`, clock 5. -/
def st9 : ServerState := { store := [("t1", dataT1)], cancellations := [], clock := 5 }

/-- A structurally valid `tasks/get` request whose id is `null`. -/
def c9aBody : RpcRequest :=
  { jsonrpc := "2.0", id := some RpcId.null, method := "tasks/get"
    params := some { id := some "t1" } }

/-- A structurally valid request (id 7) with an unknown method. -/
def c9bBody : RpcRequest :=
  { jsonrpc := "2.0", id := some (RpcId.num 7), method := "tasks/unknown"
    params := none }

/-- A handler that yields nothing (unused by `tasks/get`). -/
def noRun : HandlerRun := ⟨[], none⟩

/-- A server state holding a `working` task `t3`, for cancellation. -/
def stT3 : ServerState :=
  { store := [("t3",
      { task :=
          { id := "t3"
            status := { state := TaskState.working, message := none, timestamp := 1 }
            artifacts := some [] }
        history := [msgUserHi] })]
    cancellations := []
    clock := 3 }

/-- Cancel params for `t3`. -/
def paramsT3 : TaskParams := { id := some "t3" }

/-- Escape-attempt data for the disk store (Scenario F). -/
def escapeData : TaskAndHistory :=
  { task :=
      { id := "../escape"
        status := { state := TaskState.submitted, message := none, timestamp := 0 } }
    history := [] }

/-! ## Helper lemmas -/

/-- Adding an element to the cancellation set makes `contains` true. -/
theorem contains_addToSet (l : List String) (x : String) :
    (addToSet l x).contains x = true := by
  unfold addToSet
  by_cases h : l.contains x = true
  · rw [if_pos h]; exact h
  · rw [if_neg h]
    simp

/-- Deleting an element from the cancellation set makes `contains` false. -/
theorem contains_eraseSet (l : List String) (x : String) :
    (eraseSet l x).contains x = false := by
  simp [eraseSet, List.contains]

/-- The streaming loop marks its last event final only when it `break`s. -/
theorem sseLoop_not_final_of_not_broke (reqId : Option RpcId) (taskId : String)
    (ys : List TaskYieldUpdate) : ∀ (st : ServerState) (data : TaskAndHistory),
    (sseLoop reqId taskId st data ys).broke = false →
    (sseLoop reqId taskId st data ys).lastEventWasFinal = false := by
  induction ys with
  | nil => intro st data _; rfl
  | cons y rest ih =>
    intro st data hb
    cases y with
    | statusUpdate u =>
      simp only [sseLoop] at hb ⊢
      by_cases hf : sseFinalStates.contains
          ((applyUpdateToTaskAndHistory st.clock data
            (TaskYieldUpdate.statusUpdate u)).task.status.state) = true
      · rw [if_pos hf] at hb
        simp at hb
      · rw [if_neg hf] at hb ⊢
        exact ih _ _ hb
    | artifactUpdate a =>
      simp only [sseLoop] at hb ⊢
      exact ih _ _ hb

/-- Characters of `basename` output never include `'/'`. -/
theorem mem_basenameChars_ne_slash (cs : List Char) (c : Char)
    (hc : c ∈ basenameChars cs) : c ≠ '/' := by
  unfold basenameChars at hc
  simp only [List.mem_reverse] at hc
  have := List.mem_takeWhile_imp hc
  simpa using this

/-- Models `path.basename` changes every string that contains a `'/'`. -/
theorem basename_ne_of_slash (s : String) (h : s.data.contains '/' = true) :
    basename s ≠ s := by
  intro he
  have hdata : basenameChars s.data = s.data := congrArg String.data he
  have hmem : '/' ∈ s.data := by simpa using h
  rw [← hdata] at hmem
  exact mem_basenameChars_ne_slash s.data '/' hmem rfl

/-! ## Claim C4 -/

/-- C4: the update merger never removes or reorders history: for every
update the output history extends the input history (in particular for
every update that is not a terminal-state reset); on a status update the
update's message is appended exactly when its role is `agent` (an absent
or explicitly-null message appends nothing); on an artifact update the
history is unchanged. -/
theorem C4_history_append_only (now : Nat) (current : TaskAndHistory) :
    (∀ update : TaskYieldUpdate,
      current.history <+: (applyUpdateToTaskAndHistory now current update).history)
  ∧ (∀ u : TaskStatusUpdate,
      (applyUpdateToTaskAndHistory now current (TaskYieldUpdate.statusUpdate u)).history
        = current.history ++
          (match u.message with
           | some (some m) => if m.role = Role.agent then [m] else []
           | _ => []))
  ∧ (∀ a : Artifact,
      (applyUpdateToTaskAndHistory now current (TaskYieldUpdate.artifactUpdate a)).history
        = current.history) := by
  have hstatus : ∀ u : TaskStatusUpdate,
      (applyUpdateToTaskAndHistory now current (TaskYieldUpdate.statusUpdate u)).history
        = current.history ++
          (match u.message with
           | some (some m) => if m.role = Role.agent then [m] else []
           | _ => []) := by
    intro u
    obtain ⟨us, um⟩ := u
    match um with
    | none => simp [applyUpdateToTaskAndHistory]
    | some none => simp [applyUpdateToTaskAndHistory]
    | some (some m) =>
      by_cases hr : m.role = Role.agent
      · simp [applyUpdateToTaskAndHistory, hr]
      · simp [applyUpdateToTaskAndHistory, hr]
  have hart : ∀ a : Artifact,
      (applyUpdateToTaskAndHistory now current (TaskYieldUpdate.artifactUpdate a)).history
        = current.history := fun _ => rfl
  refine ⟨?_, hstatus, hart⟩
  intro update
  cases update with
  | statusUpdate u => exact ⟨_, (hstatus u).symm⟩
  | artifactUpdate a => exact ⟨[], by rw [hart a, List.append_nil]⟩

/-! ## Claim C5 -/

/-- C5 counterexample: an artifact merge at current time 7 leaves the
status timestamp at its old value 3, so not every merge refreshes
`Status.timestamp`. -/
theorem C5_counterexample :
    (applyUpdateToTaskAndHistory 7 dataT1
      (TaskYieldUpdate.artifactUpdate artA)).task.status.timestamp = 3
  ∧ (3 : Nat) ≠ 7 := ⟨rfl, by decide⟩

/-- C5 (amended): only status-update merges refresh `Status.timestamp` to
the current time; an artifact-update merge leaves the task's status —
including its timestamp — unchanged. -/
theorem C5_amended_timestamp (now : Nat) (current : TaskAndHistory) :
    (∀ u : TaskStatusUpdate,
      (applyUpdateToTaskAndHistory now current
        (TaskYieldUpdate.statusUpdate u)).task.status.timestamp = now)
  ∧ (∀ a : Artifact,
      (applyUpdateToTaskAndHistory now current
        (TaskYieldUpdate.artifactUpdate a)).task.status = current.task.status) :=
  ⟨fun _ => rfl, fun _ => rfl⟩

/-! ## Claim C7 -/

/-- C7 counterexample: from the sorted artifact list `[index 5, index 7]`,
an in-bounds (non-append) update carrying index 1 replaces slot 1 and
leaves `[index 5, index 1]` — after this merge the artifacts with explicit
indices are not in ascending index order. -/
theorem C7_counterexample :
    List.Sorted artIndexLe [art5, art7]
  ∧ (applyUpdateToTaskAndHistory 9 data57
      (TaskYieldUpdate.artifactUpdate updIdx1)).task.artifacts = some [art5, updIdx1]
  ∧ ¬ List.Sorted artIndexLe [art5, updIdx1] := by
  refine ⟨?_, rfl, ?_⟩
  · simp [List.sorted_cons, artIndexLe, artIndexKey, art5, art7]
  · intro hs
    rw [List.sorted_cons] at hs
    have h5 := hs.1 updIdx1 (by simp)
    simp [artIndexLe, artIndexKey, art5, updIdx1] at h5

/-- C7 (amended): ascending index order is an outcome of the
append-new-artifact branch only.  When the update neither replaces an
in-bounds index slot nor matches an existing artifact's name, the merger
appends it and — if any artifact then carries an index — stably re-sorts
the whole list ascending by index (a missing index sorting as 0, so
unindexed and equal-index artifacts retain insertion order); after such a
merge the artifact list is sorted.  An in-bounds index replacement can
break ascending order (see the counterexample). -/
theorem C7_amended_push_sorted (now : Nat) (current : TaskAndHistory) (u : Artifact)
    (hidx : ¬ (0 ≤ u.index.getD (-1)
      ∧ u.index.getD (-1) < (((current.task.artifacts.getD []).length : Int))))
    (hname : namedMatchIndex (current.task.artifacts.getD []) u.name = none) :
    ((applyUpdateToTaskAndHistory now current (TaskYieldUpdate.artifactUpdate u)).task.artifacts
      = some (if ((current.task.artifacts.getD []) ++ [u]).any (fun a => a.index.isSome)
          then List.insertionSort artIndexLe ((current.task.artifacts.getD []) ++ [u])
          else (current.task.artifacts.getD []) ++ [u]))
  ∧ List.Sorted artIndexLe
      ((applyUpdateToTaskAndHistory now current
        (TaskYieldUpdate.artifactUpdate u)).task.artifacts.getD []) := by
  have heq : (applyUpdateToTaskAndHistory now current
      (TaskYieldUpdate.artifactUpdate u)).task.artifacts
      = some (if ((current.task.artifacts.getD []) ++ [u]).any (fun a => a.index.isSome)
          then List.insertionSort artIndexLe ((current.task.artifacts.getD []) ++ [u])
          else (current.task.artifacts.getD []) ++ [u]) := by
    simp only [applyUpdateToTaskAndHistory]
    rw [if_neg hidx, hname]
  refine ⟨heq, ?_⟩
  rw [heq]
  by_cases hany : ((current.task.artifacts.getD []) ++ [u]).any (fun a => a.index.isSome) = true
  · rw [if_pos hany]
    exact List.sorted_insertionSort artIndexLe _
  · simp only [Bool.not_eq_true] at hany
    rw [if_neg (by simp [hany])]
    have hall : ∀ a ∈ (current.task.artifacts.getD []) ++ [u], a.index = none := by
      intro a ha
      have h1 := List.any_eq_false.mp hany a ha
      exact Option.not_isSome_iff_eq_none.mp h1
    apply List.pairwise_of_forall_mem_list
    intro a ha b hb
    unfold artIndexLe artIndexKey
    rw [hall a ha, hall b hb]

/-- C7 witness: `C7_amended_push_sorted` on the first artifact push of an
empty artifact list. -/
theorem C7_witness :
    ((applyUpdateToTaskAndHistory 9 dataT1
      (TaskYieldUpdate.artifactUpdate artA)).task.artifacts
      = some (if (([] : List Artifact) ++ [artA]).any (fun a => a.index.isSome)
          then List.insertionSort artIndexLe (([] : List Artifact) ++ [artA])
          else ([] : List Artifact) ++ [artA]))
  ∧ List.Sorted artIndexLe
      ((applyUpdateToTaskAndHistory 9 dataT1
        (TaskYieldUpdate.artifactUpdate artA)).task.artifacts.getD []) :=
  C7_amended_push_sorted 9 dataT1 artA (by decide) rfl

/-! ## Claim C6 -/

/-- C6 counterexample: an in-bounds `append: true` update whose
`description` is the (present but falsy) empty string does not have its
description adopted — `if (update.description)` skips it and the existing
`"keep"` survives, so "description adopted from the update when present"
fails as stated. -/
theorem C6_counterexample :
    updEmptyDesc.description = some ""
  ∧ ((applyUpdateToTaskAndHistory 9 dataKeep
      (TaskYieldUpdate.artifactUpdate updEmptyDesc)).task.artifacts.getD []).map
        (fun a => a.description) = [some "keep"] := ⟨rfl, rfl⟩

/-- C6 (amended): for an artifact update whose index is in bounds and whose
append flag is true, the merger keeps the existing artifact at that
position with the update's parts concatenated after its own, metadata
merged with the update's entries winning, `lastChunk` adopted whenever the
update carries the key, and `description` adopted when present and
non-empty (JS truthiness: a present empty string is ignored); history is
untouched.  Scenario B ends with exactly
`[{name:"out.txt", index:0, parts:[text "A", text "B"], lastChunk:true}]`. -/
theorem C6_amended_append_merge (now : Nat) (current : TaskAndHistory) (u : Artifact)
    (i : Int) (hidx : u.index = some i) (h0 : 0 ≤ i)
    (hlt : i < (((current.task.artifacts.getD []).length : Int)))
    (happ : u.append = some true) :
    ((applyUpdateToTaskAndHistory now current
      (TaskYieldUpdate.artifactUpdate u)).task.artifacts
      = some ((current.task.artifacts.getD []).set i.toNat
          (appendArtifact ((current.task.artifacts.getD []).getD i.toNat default) u)))
  ∧ (applyUpdateToTaskAndHistory now current
      (TaskYieldUpdate.artifactUpdate u)).history = current.history
  ∧ (storeLoad (handleTaskSend scenBRun (some (RpcId.num 2)) (some paramsT2) st0).1 "t2").map
      (fun d => d.task.artifacts) = some (some [scenBExpected]) := by
  refine ⟨?_, rfl, rfl⟩
  simp only [applyUpdateToTaskAndHistory]
  rw [hidx]
  rw [if_pos ⟨h0, hlt⟩, if_pos happ]
  rfl

/-- C6 witness: `C6_amended_append_merge` applied to the concrete in-bounds
append of `updEmptyDesc` onto `[artKeep]`. -/
theorem C6_witness :
    ((applyUpdateToTaskAndHistory 9 dataKeep
      (TaskYieldUpdate.artifactUpdate updEmptyDesc)).task.artifacts
      = some ([artKeep].set 0 (appendArtifact ([artKeep].getD 0 default) updEmptyDesc)))
  ∧ (applyUpdateToTaskAndHistory 9 dataKeep
      (TaskYieldUpdate.artifactUpdate updEmptyDesc)).history = dataKeep.history
  ∧ (storeLoad (handleTaskSend scenBRun (some (RpcId.num 2)) (some paramsT2) st0).1 "t2").map
      (fun d => d.task.artifacts) = some (some [scenBExpected]) :=
  C6_amended_append_merge 9 dataKeep updEmptyDesc 0 rfl (by decide) (by decide) rfl

/-! ## Claim C2 -/

/-- C2 counterexample: a unary `tasks/send` run that yields `completed`
(terminal after the first merge) and then `working` still merges and
persists the second update — the persisted task ends in `working`, so the
unary loop does not stop at a terminal state. -/
theorem C2_counterexample :
    (applyUpdateToTaskAndHistory 1 createdT1
      (TaskYieldUpdate.statusUpdate
        { state := TaskState.completed, message := none })).task.status.state
      = TaskState.completed
  ∧ terminalStates.contains TaskState.completed = true
  ∧ storeLoad (handleTaskSend runPastTerminal (some (RpcId.num 1)) (some paramsT1) st0).1 "t1"
      = some pastTerminalData
  ∧ pastTerminalData.task.status.state = TaskState.working :=
  ⟨rfl, rfl, rfl, rfl⟩

/-- C2 (amended): the stop-at-terminal property holds for streaming runs
only.  In `tasks/sendSubscribe`, once a merged status update puts the task
into `completed`, `failed`, `canceled`, or `input-required`, the whole
stream equals the singleton run: only that one update is merged and
persisted, and the only remaining SSE event is its final status event —
regardless of any further yields and of the handler's outcome.  Unary
`tasks/send` merges and persists every yield, even after a terminal state
(see the counterexample). -/
theorem C2_amended_stream_stops_at_terminal (su : TaskStatusUpdate)
    (rest : List TaskYieldUpdate) (o o' : Option String) (reqId : Option RpcId)
    (taskId : String) (st : ServerState) (data : TaskAndHistory)
    (hfin : sseFinalStates.contains
      (applyUpdateToTaskAndHistory st.clock data
        (TaskYieldUpdate.statusUpdate su)).task.status.state = true) :
    sseRun ⟨TaskYieldUpdate.statusUpdate su :: rest, o⟩ reqId taskId st data
      = (storeSave (tick st)
          (applyUpdateToTaskAndHistory st.clock data (TaskYieldUpdate.statusUpdate su)),
         [createSuccessResponse reqId (RpcResult.statusEvent taskId
            (applyUpdateToTaskAndHistory st.clock data
              (TaskYieldUpdate.statusUpdate su)).task.status true)])
  ∧ sseRun ⟨TaskYieldUpdate.statusUpdate su :: rest, o⟩ reqId taskId st data
      = sseRun ⟨[TaskYieldUpdate.statusUpdate su], o'⟩ reqId taskId st data := by
  have key : ∀ (ys : List TaskYieldUpdate) (o₀ : Option String),
      sseRun ⟨TaskYieldUpdate.statusUpdate su :: ys, o₀⟩ reqId taskId st data
        = (storeSave (tick st)
            (applyUpdateToTaskAndHistory st.clock data (TaskYieldUpdate.statusUpdate su)),
           [createSuccessResponse reqId (RpcResult.statusEvent taskId
              (applyUpdateToTaskAndHistory st.clock data
                (TaskYieldUpdate.statusUpdate su)).task.status true)]) := by
    intro ys o₀
    simp only [sseRun, sseLoop]
    rw [if_pos hfin, hfin]
    rfl
  exact ⟨key rest o, (key rest o).trans (key [] o').symm⟩

/-- C2 witness: `C2_amended_stream_stops_at_terminal` at a concrete run
(`completed` followed by a discarded artifact yield and a discarded raised
error). -/
theorem C2_witness :
    sseRun ⟨[TaskYieldUpdate.statusUpdate { state := TaskState.completed, message := none },
             TaskYieldUpdate.artifactUpdate artA], some "x"⟩ none "t1" st0 dataT1
      = sseRun ⟨[TaskYieldUpdate.statusUpdate
          { state := TaskState.completed, message := none }], none⟩ none "t1" st0 dataT1 :=
  (C2_amended_stream_stops_at_terminal
    { state := TaskState.completed, message := none }
    [TaskYieldUpdate.artifactUpdate artA] (some "x") none none "t1" st0 dataT1 rfl).2

/-! ## Claim C3 -/

/-- C3 counterexample: a unary `tasks/send` run that yields only `working`
and returns is persisted — and answered — in state `working`; the unary
engine never forces `completed`. -/
theorem C3_counterexample :
    storeLoad (handleTaskSend runWorking (some (RpcId.num 1)) (some paramsT1) st0).1 "t1"
      = some { task := unaryNoForceTask, history := [msgUserHi] }
  ∧ (handleTaskSend runWorking (some (RpcId.num 1)) (some paramsT1) st0).2
      = Except.ok (some (RpcResponse.success (RpcId.num 1) (RpcResult.task unaryNoForceTask)))
  ∧ unaryNoForceTask.status.state ≠ TaskState.completed :=
  ⟨rfl, rfl, by decide⟩

/-- C3 (amended): only the streaming engine forces `completed`.  For a
streaming run whose loop consumed all yields without a terminal break,
whose handler returned normally, and whose ending state is not in
{completed, failed, canceled, input-required}, the engine merges
`{state: completed}`, persists it, and emits it as the final event.  The
unary engine responds with the last persisted task without forcing
(concretely: a run yielding only `working` is answered in state
`working`). -/
theorem C3_amended_forced_completion (h : HandlerRun) (reqId : Option RpcId)
    (taskId : String) (st : ServerState) (data : TaskAndHistory)
    (hb : (sseLoop reqId taskId st data h.yields).broke = false)
    (hf : sseFinalStates.contains
      (sseLoop reqId taskId st data h.yields).data.task.status.state = false)
    (ho : h.outcome = none) :
    (sseRun h reqId taskId st data
      = (storeSave (tick (sseLoop reqId taskId st data h.yields).st)
          (applyUpdateToTaskAndHistory (sseLoop reqId taskId st data h.yields).st.clock
            (sseLoop reqId taskId st data h.yields).data
            (TaskYieldUpdate.statusUpdate { state := TaskState.completed, message := none })),
         (sseLoop reqId taskId st data h.yields).events
           ++ [createSuccessResponse reqId (RpcResult.statusEvent taskId
                (applyUpdateToTaskAndHistory (sseLoop reqId taskId st data h.yields).st.clock
                  (sseLoop reqId taskId st data h.yields).data
                  (TaskYieldUpdate.statusUpdate
                    { state := TaskState.completed, message := none })).task.status true)]))
  ∧ (applyUpdateToTaskAndHistory (sseLoop reqId taskId st data h.yields).st.clock
      (sseLoop reqId taskId st data h.yields).data
      (TaskYieldUpdate.statusUpdate
        { state := TaskState.completed, message := none })).task.status.state
      = TaskState.completed
  ∧ storeLoad (handleTaskSend runWorking (some (RpcId.num 1)) (some paramsT1) st0).1 "t1"
      = some { task := unaryNoForceTask, history := [msgUserHi] }
  ∧ unaryNoForceTask.status.state = TaskState.working := by
  have hlf := sseLoop_not_final_of_not_broke reqId taskId h.yields st data hb
  refine ⟨?_, rfl, rfl, rfl⟩
  simp only [sseRun, sseFinish, hb, ho, hlf, hf]
  simp

/-- C3 witness: `C3_amended_forced_completion` on the run that yields only
`working`: the stream ends with a forced `completed` event. -/
theorem C3_witness :
    (sseRun runWorking none "t1" st0 dataT1).2.getLast?
      = some (createSuccessResponse none (RpcResult.statusEvent "t1"
          { state := TaskState.completed, message := none, timestamp := 1 } true)) := by
  have h := C3_amended_forced_completion runWorking none "t1" st0 dataT1 rfl rfl rfl
  rw [h.1]
  rfl

/-! ## Claim C1 -/

/-- C1 (Scenario D, `tasks/send` with a handler raising `Error("boom")`):
the failure is merged and persisted — state `failed` with an agent message
containing "boom" — as the claim says; but the wire response, while an
error envelope with code -32603, carries the message
"An unknown error occurred." (and id `null`), with "boom" only nested in
the error `data`: `handleTaskSend` throws the already-normalized response
(contradicting its own "Rethrow original error" comment) and
`errorHandler` re-normalizes it as an unknown value. -/
theorem C1_crash_persists_failed_but_wire_message_lost :
    (∃ d, storeLoad c1Result.1 "t4" = some d
      ∧ d.task.status.state = TaskState.failed
      ∧ d.task.status.message = some msgFailBoom
      ∧ d.history.getLast? = some msgFailBoom
      ∧ msgTextContains msgFailBoom "boom" = true)
  ∧ c1Result.2 = some (RpcResponse.failure c1WireFailure)
  ∧ c1WireFailure.code = -32603
  ∧ c1WireFailure.message = "An unknown error occurred."
  ∧ strContains c1WireFailure.message "boom" = false
  ∧ c1WireFailure.id = RpcId.null :=
  ⟨⟨_, rfl, rfl, rfl, rfl, by decide⟩, rfl, rfl, rfl, by decide, rfl⟩

/-! ## Claim C9 -/

/-- C9: two structurally valid requests on which the dispatcher breaks the
claim.  (a) A valid `tasks/get` with id `null` for an existing task: the
success path returns early in `sendJsonResponse` and no JSON-RPC envelope
at all is written.  (b) A valid request (id 7) with an unknown method: the
error envelope reaches the wire with id `null` (not 7), code -32603 (not
-32601) and message "An unknown error occurred.", because `endpoint` hands
an already-normalized response object to the error middleware, which
re-normalizes it. -/
theorem C9_envelope_and_id_echo_broken :
    endpointUnary noRun c9aBody st9 = (st9, none)
  ∧ endpointUnary noRun c9bBody st9
      = (st9, some (RpcResponse.failure
          { id := RpcId.null
            code := -32603
            message := "An unknown error occurred."
            data := some (ErrData.failureResponse (RpcId.num 7) (-32601)
              "Method not found: tasks/unknown" ErrData.noData) })) :=
  ⟨rfl, rfl⟩

/-! ## Claim C10 -/

/-- C10: `tasks/cancel` on an existing non-terminal task inserts the id
into the cancellation set (`cancelSignalled`), and the completed call
leaves a state whose cancellation set no longer contains the id — so the
`isCancelled` predicate handed to a still-running handler returns `false`
from then on; the state persisted before the deletion is the task merged
with the `canceled` update. -/
theorem C10_cancel_set_inserted_then_cleared (reqId : Option RpcId) (st : ServerState)
    (p : TaskParams) (tid : String) (d : TaskAndHistory)
    (hid : p.id = some tid) (hne : tid ≠ "")
    (hload : storeLoad st tid = some d)
    (hterm : terminalStates.contains d.task.status.state = false) :
    (cancelSignalled st tid).cancellations.contains tid = true
  ∧ (handleTaskCancel reqId (some p) st).1.cancellations.contains tid = false
  ∧ isCancelled (handleTaskCancel reqId (some p) st).1 tid = false
  ∧ (handleTaskCancel reqId (some p) st).1
      = { storeSave (tick (cancelSignalled st tid))
            (applyUpdateToTaskAndHistory st.clock d
              (TaskYieldUpdate.statusUpdate cancelStatusUpdate)) with
          cancellations :=
            eraseSet (storeSave (tick (cancelSignalled st tid))
              (applyUpdateToTaskAndHistory st.clock d
                (TaskYieldUpdate.statusUpdate cancelStatusUpdate))).cancellations tid }
  ∧ (applyUpdateToTaskAndHistory st.clock d
      (TaskYieldUpdate.statusUpdate cancelStatusUpdate)).task.status.state
      = TaskState.canceled := by
  have hrun : handleTaskCancel reqId (some p) st
      = ({ storeSave (tick (cancelSignalled st tid))
            (applyUpdateToTaskAndHistory st.clock d
              (TaskYieldUpdate.statusUpdate cancelStatusUpdate)) with
          cancellations :=
            eraseSet (storeSave (tick (cancelSignalled st tid))
              (applyUpdateToTaskAndHistory st.clock d
                (TaskYieldUpdate.statusUpdate cancelStatusUpdate))).cancellations tid },
         Except.ok (sendJsonResponse reqId (RpcResult.task
           (applyUpdateToTaskAndHistory st.clock d
             (TaskYieldUpdate.statusUpdate cancelStatusUpdate)).task))) := by
    simp only [handleTaskCancel, hid, hload]
    rw [if_neg hne]
    rw [if_neg (show ¬ (terminalStates.contains d.task.status.state = true) by
      rw [hterm]; simp)]
    rfl
  refine ⟨contains_addToSet st.cancellations tid, ?_, ?_, ?_, rfl⟩
  · rw [hrun]
    exact contains_eraseSet _ tid
  · unfold isCancelled
    rw [hrun]
    exact contains_eraseSet _ tid
  · rw [hrun]

/-- C10 witness: cancelling the `working` task `t3` of `stT3`. -/
theorem C10_witness :
    (cancelSignalled stT3 "t3").cancellations.contains "t3" = true
  ∧ (handleTaskCancel (some (RpcId.num 9)) (some paramsT3) stT3).1.cancellations.contains "t3"
      = false
  ∧ isCancelled (handleTaskCancel (some (RpcId.num 9)) (some paramsT3) stT3).1 "t3" = false := by
  have h := C10_cancel_set_inserted_then_cleared (some (RpcId.num 9)) stT3 paramsT3 "t3" _
    rfl (by decide) rfl (by decide)
  exact ⟨h.1, h.2.1, h.2.2.1⟩

/-! ## Claim C8 -/

/-- C8: for every task id containing a path separator or the substring
`".."`, both `FileStore.load` and `FileStore.save` reject the id with an
invalid-params error (code -32602) while performing no filesystem
operation at all. -/
theorem C8_traversal_ids_rejected_before_io (baseDir taskId : String) (fs : DiskFS)
    (data : TaskAndHistory) (hdata : data.task.id = taskId)
    (hbad : taskId.data.contains '/' = true ∨ includesDotDot taskId = true) :
    fileStoreLoad fs baseDir taskId
      = ([], Except.error (A2AError.invalidParams ("Invalid Task ID format: " ++ taskId)))
  ∧ fileStoreSave fs baseDir data
      = ([], Except.error (A2AError.invalidParams ("Invalid Task ID format: " ++ taskId)))
  ∧ (A2AError.invalidParams ("Invalid Task ID format: " ++ taskId)).code = -32602 := by
  have hrej : getHistoryFilePath baseDir taskId
      = Except.error (A2AError.invalidParams ("Invalid Task ID format: " ++ taskId)) := by
    unfold getHistoryFilePath
    rw [if_pos]
    rcases hbad with hslash | hdots
    · exact Or.inl (basename_ne_of_slash taskId hslash)
    · exact Or.inr hdots
  refine ⟨?_, ?_, rfl⟩
  · simp only [fileStoreLoad, hrej]
  · simp only [fileStoreSave, hdata, hrej]

/-- C8 witness: Scenario F's id `"../escape"` is rejected by both
operations with no filesystem access. -/
theorem C8_witness :
    fileStoreLoad ⟨[], []⟩ ".a2a-tasks" "../escape"
      = ([], Except.error (A2AError.invalidParams ("Invalid Task ID format: " ++ "../escape")))
  ∧ fileStoreSave ⟨[], []⟩ ".a2a-tasks" escapeData
      = ([], Except.error (A2AError.invalidParams ("Invalid Task ID format: " ++ "../escape")))
  ∧ (A2AError.invalidParams ("Invalid Task ID format: " ++ "../escape")).code = -32602 :=
  C8_traversal_ids_rejected_before_io ".a2a-tasks" "../escape" ⟨[], []⟩ escapeData rfl
    (Or.inr (by decide))

end A2A
